import Mathlib

/-!
Verification development for `src/app.py` of the autoris-ots-microservice
repository: a shallow embedding of its proof-store and status-classification
logic, with theorems checking the design document's claims against it.

Conventions of the embedding:
* byte strings are `List Nat` (each entry a byte value);
* Python text is `List Char`; Python `in` substring tests, `str.strip()` and
  `str.lower()` are modelled on ASCII text (the inputs the claims concern);
* the external `ots` subprocess is an explicit `Engine` parameter recording,
  for each operation, the spawn outcome (binary missing vs. completed with
  exit code and captured output) and the resulting proof-file content;
* the proofs directory (`PROOFS_DIR`) is an association list from file name
  to file bytes, threaded through each endpoint as explicit state.
-/

namespace AutorisOts

/-- Byte strings (`bytes` in the Python source). -/
abbrev Bytes := List Nat

/-- Python whitespace characters stripped by `str.strip()` (ASCII part). -/
def isPyWs (c : Char) : Bool :=
  c = ' ' || c = '\t' || c = '\n' || c = '\r' || c = '\x0b' || c = '\x0c'

/-- Python `str.strip()`: removes leading and trailing whitespace. -/
def pyStrip (s : List Char) : List Char :=
  ((s.dropWhile isPyWs).reverse.dropWhile isPyWs).reverse

/-- Python `str.lower()` (ASCII letters; the classifier markers are ASCII). -/
def pyLower (s : List Char) : List Char :=
  s.map Char.toLower

/-- Python `pat in s` substring containment on text. -/
def pyIn (pat s : List Char) : Bool :=
  (List.range (s.length + 1)).any (fun i => pat.isPrefixOf (s.drop i))

/-! ### SHA-256 (`hashlib.sha256(...).hexdigest()` in the source)

A direct executable implementation of FIPS 180-4 SHA-256 over byte lists,
with 32-bit words represented as `Nat` reduced mod `2^32`. -/

/-- Truncate to a 32-bit word. -/
def w32 (x : Nat) : Nat := x % 4294967296

/-- Right rotation of a 32-bit word by `n` bits. -/
def rotr (n x : Nat) : Nat := (x >>> n) ||| ((x <<< (32 - n)) % 4294967296)

/-- SHA-256 `Ch` function. -/
def shaCh (e f g : Nat) : Nat := (e &&& f) ^^^ ((e ^^^ 4294967295) &&& g)

/-- SHA-256 `Maj` function. -/
def shaMaj (a b c : Nat) : Nat := (a &&& b) ^^^ (a &&& c) ^^^ (b &&& c)

/-- SHA-256 big sigma 0. -/
def bsig0 (x : Nat) : Nat := rotr 2 x ^^^ rotr 13 x ^^^ rotr 22 x

/-- SHA-256 big sigma 1. -/
def bsig1 (x : Nat) : Nat := rotr 6 x ^^^ rotr 11 x ^^^ rotr 25 x

/-- SHA-256 small sigma 0. -/
def ssig0 (x : Nat) : Nat := rotr 7 x ^^^ rotr 18 x ^^^ (x >>> 3)

/-- SHA-256 small sigma 1. -/
def ssig1 (x : Nat) : Nat := rotr 17 x ^^^ rotr 19 x ^^^ (x >>> 10)

/-- The 64 SHA-256 round constants (decimal rendering of the FIPS 180-4
table). -/
def shaK : List Nat :=
  [1116352408, 1899447441, 3049323471, 3921009573, 961987163, 1508970993,
   2453635748, 2870763221, 3624381080, 310598401, 607225278, 1426881987,
   1925078388, 2162078206, 2614888103, 3248222580, 3835390401, 4022224774,
   264347078, 604807628, 770255983, 1249150122, 1555081692, 1996064986,
   2554220882, 2821834349, 2952996808, 3210313671, 3336571891, 3584528711,
   113926993, 338241895, 666307205, 773529912, 1294757372, 1396182291,
   1695183700, 1986661051, 2177026350, 2456956037, 2730485921, 2820302411,
   3259730800, 3345764771, 3516065817, 3600352804, 4094571909, 275423344,
   430227734, 506948616, 659060556, 883997877, 958139571, 1322822218,
   1537002063, 1747873779, 1955562222, 2024104815, 2227730452, 2361852424,
   2428436474, 2756734187, 3204031479, 3329325298]

/-- The SHA-256 initial hash value (decimal rendering). -/
def shaH0 : List Nat :=
  [1779033703, 3144134277, 1013904242, 2773480762,
   1359893119, 2600822924, 528734635, 1541459225]

/-- Pad a byte message per FIPS 180-4: append `0x80`, zero bytes until the
length is 56 mod 64, then the bit length as 8 big-endian bytes. -/
def padMessage (msg : Bytes) : Bytes :=
  let L := msg.length
  let zeros := (119 - L % 64) % 64
  let bitLen := 8 * L
  msg ++ [0x80] ++ List.replicate zeros 0 ++
    (List.range 8).map (fun i => (bitLen >>> (8 * (7 - i))) % 256)

/-- Group bytes into big-endian 32-bit words. -/
def bytesToWords : Bytes → List Nat
  | b0 :: b1 :: b2 :: b3 :: rest =>
      ((((b0 <<< 8) ||| b1) <<< 8 ||| b2) <<< 8 ||| b3) :: bytesToWords rest
  | _ => []

/-- Split a byte list into 64-byte blocks (structural recursion on a fuel
bound so the kernel can evaluate it; `fuel = l.length` always suffices). -/
def chunks64Aux : Nat → Bytes → List Bytes
  | 0, _ => []
  | _, [] => []
  | fuel + 1, a :: rest => ((a :: rest).take 64) :: chunks64Aux fuel ((a :: rest).drop 64)

/-- Split a byte list into 64-byte blocks. -/
def chunks64 (l : Bytes) : List Bytes := chunks64Aux l.length l

/-- Extend a 16-word message schedule by `k` further words. -/
def extendSchedule (ws : List Nat) : Nat → List Nat
  | 0 => ws
  | k + 1 =>
      let n := ws.length
      let wt := w32 (ssig1 (ws.getD (n - 2) 0) + ws.getD (n - 7) 0 +
                     ssig0 (ws.getD (n - 15) 0) + ws.getD (n - 16) 0)
      extendSchedule (ws ++ [wt]) k

/-- One SHA-256 compression round on the 8-word working state. -/
def compressStep (st : List Nat) (kw : Nat × Nat) : List Nat :=
  match st with
  | [a, b, c, d, e, f, g, h] =>
      let t1 := w32 (h + bsig1 e + shaCh e f g + kw.1 + kw.2)
      let t2 := w32 (bsig0 a + shaMaj a b c)
      [w32 (t1 + t2), a, b, c, w32 (d + t1), e, f, g]
  | other => other

/-- Process one 64-byte block into the running 8-word hash state. -/
def processBlock (h : List Nat) (block : Bytes) : List Nat :=
  let w := extendSchedule (bytesToWords block) 48
  let st := (shaK.zip w).foldl compressStep h
  (h.zip st).map (fun p => w32 (p.1 + p.2))

/-- SHA-256 digest of a byte message, as 32 bytes. -/
def sha256 (msg : Bytes) : Bytes :=
  let final := (chunks64 (padMessage msg)).foldl processBlock shaH0
  final.foldr (fun w acc =>
    (w >>> 24) :: ((w >>> 16) % 256) :: ((w >>> 8) % 256) :: (w % 256) :: acc) []

/-- Lowercase hex digit for a value below 16. -/
def hexDigit (n : Nat) : Char :=
  if n < 10 then Char.ofNat (48 + n) else Char.ofNat (87 + n)

/-- Lowercase hex rendering of a byte list. -/
def bytesToHexChars (bs : Bytes) : List Char :=
  bs.foldr (fun b acc => hexDigit (b / 16) :: hexDigit (b % 16) :: acc) []

/-- `_sha256_bytes(data)` from the source: `hashlib.sha256(data).hexdigest()`. -/
def _sha256_bytes (data : Bytes) : String :=
  String.mk (bytesToHexChars (sha256 data))

/-! ### Status classifier (`_status_from_text` in the source) -/

/-- The confirmed-attestation markers tested by the first branch of
`_status_from_text`: `"timestamp complete" in t or "attestation verified" in t
or ("success!" in t and "complete" in t)`. -/
def hasVerifiedMarker (t : List Char) : Bool :=
  pyIn "timestamp complete".toList t || pyIn "attestation verified".toList t ||
    (pyIn "success!".toList t && pyIn "complete".toList t)

/-- The pending markers tested by the second branch of `_status_from_text`:
`"pending" in t or "pending confirmation" in t or "not enough confirmations" in t`. -/
def hasPendingMarker (t : List Char) : Bool :=
  pyIn "pending".toList t || pyIn "pending confirmation".toList t ||
    pyIn "not enough confirmations".toList t

/-- The failure markers tested by the third branch of `_status_from_text`:
`"not a timestamp" in t or "error" in t or "failed" in t`. -/
def hasFailedMarker (t : List Char) : Bool :=
  pyIn "not a timestamp".toList t || pyIn "error".toList t ||
    pyIn "failed".toList t

/-- `_status_from_text(text)`: ordered, first-match-wins classification of the
engine's combined output text into a lifecycle status string. -/
def _status_from_text (text : List Char) : String :=
  let t := pyLower text
  if hasVerifiedMarker t then "verified"
  else if hasPendingMarker t then "pending"
  else if hasFailedMarker t then "failed"
  else "unknown"

/-! ### Subprocess adapter (`_run`, `_run_ots_verify`, `_run_ots_upgrade`) -/

/-- Outcome of `subprocess.run` on the `ots` command: either the binary is
missing (`FileNotFoundError`) or the process completed with an exit code and
captured stdout/stderr. -/
inductive SpawnOutcome where
  | notFound (msg : List Char)
  | completed (returncode : Int) (stdout stderr : List Char)
deriving DecidableEq

/-- A raised `HTTPException(status_code, detail)`. -/
inductive HTTPError where
  | http (statusCode : Nat) (detail : List Char)
deriving DecidableEq

/-- The dict returned by `_run`. -/
structure RunResult where
  returncode : Int
  stdout : List Char
  stderr : List Char
  ok : Bool
deriving DecidableEq

/-- `_run(cmd)`: raises HTTP 500 only when the executable is missing;
otherwise returns the completed process result, stripping captured output,
with `ok = (returncode == 0)` — a nonzero exit is returned, never raised. -/
def _run (s : SpawnOutcome) : Except HTTPError RunResult :=
  match s with
  | .notFound msg =>
      .error (.http 500 ("Executable not found: ots. ".toList ++ msg))
  | .completed rc out err =>
      .ok { returncode := rc, stdout := pyStrip out, stderr := pyStrip err,
            ok := rc == 0 }

/-- The dict returned by `_run_ots_verify` / `_run_ots_upgrade` (the `_run`
result with a `status` field added and, for verify, `ok` possibly forced). -/
structure OtsRunResult where
  returncode : Int
  stdout : List Char
  stderr : List Char
  ok : Bool
  status : String
deriving DecidableEq

/-- `(r["stdout"] + "\n" + r["stderr"]).lower()`. -/
def combinedText (r : RunResult) : List Char :=
  pyLower (r.stdout ++ '\n' :: r.stderr)

/-- The verify `ok` override heuristic in `_run_ots_verify`:
`("bitcoin block" in text) or ("attestation verified" in text) or
("pending confirmation" in text) or ("got" in text and "attestation" in text)`. -/
def verifyOkMarkers (t : List Char) : Bool :=
  pyIn "bitcoin block".toList t || pyIn "attestation verified".toList t ||
    pyIn "pending confirmation".toList t ||
    (pyIn "got".toList t && pyIn "attestation".toList t)

/-- `_run_ots_verify(ots_path)`: runs `ots ... verify`, forces `ok` on the
marker heuristic, and attaches `status = _status_from_text(text)`. -/
def _run_ots_verify (s : SpawnOutcome) : Except HTTPError OtsRunResult :=
  match _run s with
  | .error e => .error e
  | .ok r =>
      let text := combinedText r
      .ok { returncode := r.returncode, stdout := r.stdout, stderr := r.stderr,
            ok := verifyOkMarkers text || r.ok,
            status := _status_from_text text }

/-- `_run_ots_upgrade(ots_path)`: runs `ots ... upgrade` and attaches
`status = _status_from_text(text)` (no `ok` override). -/
def _run_ots_upgrade (s : SpawnOutcome) : Except HTTPError OtsRunResult :=
  match _run s with
  | .error e => .error e
  | .ok r =>
      .ok { returncode := r.returncode, stdout := r.stdout, stderr := r.stderr,
            ok := r.ok, status := _status_from_text (combinedText r) }

/-! ### The external engine and the proof store -/

/-- Behaviour of the external `ots` binary, per operation, as a function of
the file content it is invoked on: the spawn outcome, the stamp artifact
produced beside the input (if any), and the proof-file content left behind by
an in-place `upgrade`. -/
structure Engine where
  stampSpawn : Bytes → SpawnOutcome
  stampArtifact : Bytes → Option Bytes
  verifySpawn : Bytes → Option Bytes → SpawnOutcome
  upgradeSpawn : Bytes → SpawnOutcome
  upgradeResult : Bytes → Bytes

/-- The `PROOFS_DIR` directory: file name to file bytes. -/
abbrev Store := List (String × Bytes)

/-- Read the bytes of a file in `PROOFS_DIR` (`None` = file absent). -/
def Store.get (st : Store) (name : String) : Option Bytes :=
  (st.find? (fun e => e.1 == name)).map (fun e => e.2)

/-- `dest.write_bytes(b)`: create or overwrite a file. -/
def Store.put (st : Store) (name : String) (b : Bytes) : Store :=
  (name, b) :: st.filter (fun e => e.1 != name)

/-- Rewrite in place the content of an existing file (the effect of the
engine upgrading a proof file where it lies). -/
def Store.setExisting (st : Store) (name : String) (b : Bytes) : Store :=
  st.map (fun e => if e.1 == name then (name, b) else e)

/-! ### Endpoints of the service -/

/-- One lowercase hex digit, as accepted by `HEX64_RE = ^[0-9a-f]{64}$`
(code points of `0`-`9` and `a`-`f`). -/
def isHexLowerDigit (c : Char) : Bool :=
  (48 ≤ c.toNat && c.toNat ≤ 57) || (97 ≤ c.toNat && c.toNat ≤ 102)

/-- `HEX64_RE.match(s)`: exactly 64 lowercase hex characters. -/
def isHex64 (s : List Char) : Bool :=
  s.length == 64 && s.all isHexLowerDigit

/-- The JSON body returned by `POST /stamp-file` on success. -/
structure StampReply where
  ok : Bool
  file_hash : String
  proof : Bytes
  saved_as : Option String
  returncode : Int
  stdout : List Char
  stderr : List Char
  status : String
deriving DecidableEq

/-- Possible responses of `POST /stamp-file`. -/
inductive StampOutcome where
  | engineError (e : HTTPError)
  | artifactMissing (returncode : Int) (stdout stderr : List Char)
  | success (reply : StampReply)
deriving DecidableEq

/-- `stamp_file` endpoint: materialize the upload in a scratch directory, run
`ots stamp`, require the `.ots` artifact, hash the uploaded bytes, optionally
persist the proof as `{file_hash}.ots`, and reply with `status = "pending"`. -/
def stamp_file (eng : Engine) (st : Store) (data : Bytes) (save : Bool) :
    StampOutcome × Store :=
  match _run (eng.stampSpawn data) with
  | .error e => (.engineError e, st)
  | .ok r =>
    match eng.stampArtifact data with
    | none => (.artifactMissing r.returncode r.stdout r.stderr, st)
    | some proofBytes =>
      let fileHash := _sha256_bytes data
      let destName := fileHash ++ ".ots"
      let savedAs : Option String := if save then some destName else none
      let st2 := if save then st.put destName proofBytes else st
      (.success { ok := true, file_hash := fileHash, proof := proofBytes,
                  saved_as := savedAs, returncode := r.returncode,
                  stdout := r.stdout, stderr := r.stderr,
                  status := "pending" }, st2)

/-- The JSON body returned by `POST /verify-ots`. -/
structure VerifyReply where
  ok : Bool
  status : String
  returncode : Int
  stdout : List Char
  stderr : List Char
  file_hash : Option String
  saved_as : Option String
deriving DecidableEq

/-- `verify_ots` endpoint: materialize the proof upload (and the original
file when one with nonempty content was supplied), run `ots verify`, hash the
original when present, optionally persist the uploaded proof bytes as
`{file_hash}.ots` (only possible when the original was supplied). -/
def verify_ots (eng : Engine) (st : Store) (otsBytes : Bytes)
    (target : Option Bytes) (save : Bool) :
    Except HTTPError VerifyReply × Store :=
  let fileHash : Option String :=
    match target with
    | none => none
    | some tb => if tb.isEmpty then none else some (_sha256_bytes tb)
  let engTarget : Option Bytes :=
    match target with
    | none => none
    | some tb => if tb.isEmpty then none else some tb
  match _run_ots_verify (eng.verifySpawn otsBytes engTarget) with
  | .error e => (.error e, st)
  | .ok result =>
    let (savedAs, st2) :=
      match fileHash, save with
      | some fh, true => (some (fh ++ ".ots"), st.put (fh ++ ".ots") otsBytes)
      | _, _ => (none, st)
    (.ok { ok := result.status == "verified", status := result.status,
           returncode := result.returncode, stdout := result.stdout,
           stderr := result.stderr, file_hash := fileHash,
           saved_as := savedAs }, st2)

/-- The JSON body returned by `POST /upgrade-ots` when status is not verified. -/
structure UpgradeJson where
  ok : Bool
  status : String
  returncode : Int
  stdout : List Char
  stderr : List Char
  ots_size : Nat
  saved_as : Option String
deriving DecidableEq

/-- Possible responses of `POST /upgrade-ots`. -/
inductive UpgradeOutcome where
  | engineError (e : HTTPError)
  | jsonReply (j : UpgradeJson)
  | download (filename : String) (content : Bytes) (returncode : Int)
      (saved_as : Option String)
deriving DecidableEq

/-- `upgrade_ots` endpoint: materialize the proof upload in a scratch
directory, run `ots upgrade` in place there, read back the (possibly
rewritten) bytes, optionally persist them — named `{sha256(upgraded)}.ots`
when `by_hash`, else by the uploaded filename — then reply with JSON when not
verified, or the upgraded file as a download when verified. -/
def upgrade_ots (eng : Engine) (st : Store) (otsBytes : Bytes)
    (filename : String) (save byHash : Bool) : UpgradeOutcome × Store :=
  match _run_ots_upgrade (eng.upgradeSpawn otsBytes) with
  | .error e => (.engineError e, st)
  | .ok r =>
    let upgraded := eng.upgradeResult otsBytes
    let outName := if byHash then _sha256_bytes upgraded ++ ".ots" else filename
    let savedAs : Option String := if save then some outName else none
    let st2 := if save then st.put outName upgraded else st
    if r.status != "verified" then
      (.jsonReply { ok := false, status := r.status, returncode := r.returncode,
                    stdout := r.stdout, stderr := r.stderr,
                    ots_size := upgraded.length, saved_as := savedAs }, st2)
    else
      (.download filename upgraded r.returncode savedAs, st2)

/-- Possible responses of `GET /verify?file_hash=...`. -/
inductive VHOutcome where
  | badRequest (detail : List Char)
  | notFound
  | engineError (e : HTTPError)
  | reply (ok : Bool) (status : String) (mode : String) (returncode : Int)
      (stdout stderr : List Char)
deriving DecidableEq

/-- `verify_by_hash` endpoint: normalize the key with `.lower().strip()`,
reject non-`^[0-9a-f]{64}$` keys with HTTP 400, report 404 when
`{file_hash}.ots` is absent from `PROOFS_DIR`; otherwise try `ots verify` on
the stored proof and, when that does not classify verified, probe the status
by running `ots upgrade` directly on the stored proof file (which the engine
may rewrite in place). -/
def verify_by_hash (eng : Engine) (st : Store) (file_hash : List Char) :
    VHOutcome × Store :=
  let fh := pyStrip (pyLower file_hash)
  if !(isHex64 fh) then
    (.badRequest "file_hash must be a 64-char hex SHA-256".toList, st)
  else
    let name := String.mk fh ++ ".ots"
    match Store.get st name with
    | none => (.notFound, st)
    | some proofBytes =>
      match _run_ots_verify (eng.verifySpawn proofBytes none) with
      | .error e => (.engineError e, st)
      | .ok result =>
        if result.status == "verified" then
          (.reply true "verified" "content_verify" result.returncode
             result.stdout result.stderr, st)
        else
          match _run_ots_upgrade (eng.upgradeSpawn proofBytes) with
          | .error e => (.engineError e, st)
          | .ok up =>
            let st2 := Store.setExisting st name (eng.upgradeResult proofBytes)
            (.reply (up.status == "verified") up.status "status_only"
               up.returncode up.stdout up.stderr, st2)

/-! ### Sample engines and fixtures for concrete instantiations -/

/-- An engine whose verify run reports a pending proof and whose upgrade run
reports success while appending a byte to the proof file in place. -/
def engMut : Engine where
  stampSpawn := fun _ => .completed 0 [] []
  stampArtifact := fun _ => some [0, 1, 2, 3]
  verifySpawn := fun _ _ => .completed 1 "Pending confirmation in Bitcoin blockchain".toList []
  upgradeSpawn := fun _ => .completed 0 "Success! Timestamp complete".toList []
  upgradeResult := fun b => b ++ [9]

/-- An engine whose runs all report a pending proof and leave it unchanged. -/
def engPend : Engine where
  stampSpawn := fun _ => .completed 0 "Submitting to remote calendar".toList []
  stampArtifact := fun _ => some [0, 1, 2, 3]
  verifySpawn := fun _ _ => .completed 1 "Pending confirmation in Bitcoin blockchain".toList []
  upgradeSpawn := fun _ => .completed 0 "Pending confirmation".toList []
  upgradeResult := fun b => b

/-- An engine whose verify run reports a complete timestamp. -/
def engDone : Engine where
  stampSpawn := fun _ => .completed 0 [] []
  stampArtifact := fun _ => some [0, 1, 2, 3]
  verifySpawn := fun _ _ => .completed 0 "Success! Timestamp complete".toList []
  upgradeSpawn := fun _ => .completed 0 "Success! Timestamp complete".toList []
  upgradeResult := fun b => b

/-- An engine whose runs report an explicit failure. -/
def engFail : Engine where
  stampSpawn := fun _ => .completed 1 [] "Error: not a timestamp file".toList
  stampArtifact := fun _ => none
  verifySpawn := fun _ _ => .completed 1 [] "Error: not a timestamp file".toList
  upgradeSpawn := fun _ => .completed 1 [] "Error: not a timestamp file".toList
  upgradeResult := fun b => b

/-! ### Normalization lemmas -/

/-- A lowercase hex digit is unchanged by `Char.toLower`. -/
theorem toLower_eq_self_of_hex {c : Char} (h : isHexLowerDigit c = true) :
    c.toLower = c := by
  simp only [isHexLowerDigit, Bool.or_eq_true, Bool.and_eq_true,
    decide_eq_true_eq] at h
  unfold Char.toLower
  rcases h with ⟨h1, h2⟩ | ⟨h1, h2⟩ <;>
    · rw [if_neg]
      omega

/-- A lowercase hex digit is not Python whitespace. -/
theorem isPyWs_eq_false_of_hex {c : Char} (h : isHexLowerDigit c = true) :
    isPyWs c = false := by
  simp only [isHexLowerDigit, Bool.or_eq_true, Bool.and_eq_true,
    decide_eq_true_eq] at h
  simp only [isPyWs, Bool.or_eq_false_iff, decide_eq_false_iff_not]
  refine ⟨⟨⟨⟨⟨?_, ?_⟩, ?_⟩, ?_⟩, ?_⟩, ?_⟩ <;>
    · intro hc
      subst hc
      rcases h with ⟨h1, h2⟩ | ⟨h1, h2⟩ <;> revert h1 h2 <;> decide

/-- `str.lower()` leaves an all-lowercase-hex string unchanged. -/
theorem pyLower_eq_self_of_hex {s : List Char}
    (h : s.all isHexLowerDigit = true) : pyLower s = s := by
  induction s with
  | nil => rfl
  | cons a t ih =>
      rw [List.all_cons, Bool.and_eq_true] at h
      show a.toLower :: pyLower t = a :: t
      rw [toLower_eq_self_of_hex h.1, ih h.2]

/-- `dropWhile` does nothing on a list none of whose elements satisfy the
predicate. -/
theorem dropWhile_eq_self_of_none {p : Char → Bool} {s : List Char}
    (h : ∀ c ∈ s, p c = false) : s.dropWhile p = s := by
  cases s with
  | nil => rfl
  | cons a t =>
      have ha : p a = false := h a (List.mem_cons_self a t)
      simp [List.dropWhile, ha]

/-- `str.strip()` leaves a whitespace-free string unchanged. -/
theorem pyStrip_eq_self_of_no_ws {s : List Char}
    (h : ∀ c ∈ s, isPyWs c = false) : pyStrip s = s := by
  unfold pyStrip
  rw [dropWhile_eq_self_of_none h,
    dropWhile_eq_self_of_none (fun c hc => h c (List.mem_reverse.mp hc)),
    List.reverse_reverse]

/-- The key normalization `file_hash.lower().strip()` leaves a well-formed
64-lowercase-hex key unchanged. -/
theorem normalize_eq_self_of_hex64 {s : List Char} (h : isHex64 s = true) :
    pyStrip (pyLower s) = s := by
  rw [isHex64, Bool.and_eq_true] at h
  rw [pyLower_eq_self_of_hex h.2]
  exact pyStrip_eq_self_of_no_ws fun c hc =>
    isPyWs_eq_false_of_hex (List.all_eq_true.mp h.2 c hc)

/-! ### Claim theorems -/

/-- C1: for every input text that contains a pending marker together with an
explicit error/failure marker and no confirmed-attestation marker (all tested
case-insensitively, as `_status_from_text` lowercases its input), the
classifier returns `pending` and never `failed`: the pending branch is
checked before the failure branch. -/
theorem c1_pending_wins_over_failed (text : List Char)
    (hp : hasPendingMarker (pyLower text) = true)
    (_hf : hasFailedMarker (pyLower text) = true)
    (hv : hasVerifiedMarker (pyLower text) = false) :
    _status_from_text text = "pending" ∧ _status_from_text text ≠ "failed" := by
  have h : _status_from_text text = "pending" := by
    simp [_status_from_text, hv, hp]
  exact ⟨h, by rw [h]; decide⟩

/-- Witness for C1 at a concrete pending-plus-error engine output. -/
theorem c1_witness :
    (hasPendingMarker (pyLower "Pending confirmation. Error contacting calendar.".toList) = true ∧
     hasFailedMarker (pyLower "Pending confirmation. Error contacting calendar.".toList) = true ∧
     hasVerifiedMarker (pyLower "Pending confirmation. Error contacting calendar.".toList) = false) ∧
    (_status_from_text "Pending confirmation. Error contacting calendar.".toList = "pending" ∧
     _status_from_text "Pending confirmation. Error contacting calendar.".toList ≠ "failed") :=
  ⟨⟨by decide, by decide, by decide⟩,
   c1_pending_wins_over_failed _ (by decide) (by decide) (by decide)⟩

/-- C2 counterexample: this engine output contains a "got ... attestation"
phrase and a Bitcoin block reference — confirmed-attestation markers per the
claim — yet `_status_from_text` classifies it `unknown`, not `verified`:
those two markers only feed the `ok` heuristic of `_run_ots_verify`, not the
status classifier. -/
theorem c2_counterexample :
    pyIn "bitcoin block".toList (pyLower "Got 1 attestation(s). Bitcoin block 123456".toList) = true ∧
    pyIn "got".toList (pyLower "Got 1 attestation(s). Bitcoin block 123456".toList) = true ∧
    pyIn "attestation".toList (pyLower "Got 1 attestation(s). Bitcoin block 123456".toList) = true ∧
    verifyOkMarkers (pyLower "Got 1 attestation(s). Bitcoin block 123456".toList) = true ∧
    _status_from_text "Got 1 attestation(s). Bitcoin block 123456".toList = "unknown" :=
  ⟨by decide, by decide, by decide, by decide, by decide⟩

/-- C2 amended: for every engine output text containing one of the
classifier's actual confirmed-attestation markers — `timestamp complete`,
`attestation verified`, or `success!` together with `complete`
(case-insensitively) — `_status_from_text` returns `verified`. -/
theorem c2_actual_verified_markers (text : List Char)
    (hv : hasVerifiedMarker (pyLower text) = true) :
    _status_from_text text = "verified" := by
  simp [_status_from_text, hv]

/-- Witness for the amended C2 at a concrete completed-attestation output. -/
theorem c2_witness :
    hasVerifiedMarker (pyLower "Success! Timestamp complete".toList) = true ∧
    _status_from_text "Success! Timestamp complete".toList = "verified" :=
  ⟨by decide, c2_actual_verified_markers _ (by decide)⟩

/-- C3 counterexample: 64 uppercase `A`s do not match `^[0-9a-f]{64}$`, yet
`verify_by_hash` does not fail with `InvalidKey`: the key is lowercased and
stripped before validation, so the store is consulted and the outcome here is
the 404 `NotFound` reply. -/
theorem c3_counterexample :
    isHex64 (List.replicate 64 'A') = false ∧
    verify_by_hash engPend [] (List.replicate 64 'A') = (.notFound, []) :=
  ⟨by decide, by decide⟩

/-- C3 amended: the input is first normalized by `.lower().strip()`; every
input whose normalized form does not match `^[0-9a-f]{64}$` fails with the
`InvalidKey` HTTP 400 before any filesystem access — the result is the same
for every engine and every store, and the store is returned unchanged.
(Mixed-case or whitespace-padded hex normalizes to a valid key and is
accepted rather than rejected.) -/
theorem c3_reject_before_store (eng : Engine) (st : Store) (input : List Char)
    (hbad : isHex64 (pyStrip (pyLower input)) = false) :
    verify_by_hash eng st input =
      (.badRequest "file_hash must be a 64-char hex SHA-256".toList, st) := by
  simp [verify_by_hash, hbad]

/-- Witness for the amended C3 at a concrete path-traversal input. -/
theorem c3_witness :
    isHex64 (pyStrip (pyLower "../../etc/passwd".toList)) = false ∧
    verify_by_hash engPend [("aaaa.ots", [1])] "../../etc/passwd".toList =
      (.badRequest "file_hash must be a 64-char hex SHA-256".toList,
       [("aaaa.ots", [1])]) :=
  ⟨by decide, c3_reject_before_store engPend [("aaaa.ots", [1])] _ (by decide)⟩

/-- C4 counterexample: a stored proof whose initial verify attempt classifies
`pending` (not `verified`), no persistence requested anywhere — yet after
`verify_by_hash` the stored bytes for that hash changed from `[5]` to
`[5, 9]`, because the fallback probe runs `ots upgrade` directly on the
stored proof file and the engine rewrites it in place. -/
theorem c4_counterexample :
    (_run_ots_verify (engMut.verifySpawn [5] none)).toOption.map
        (fun r => r.status) = some "pending" ∧
    (verify_by_hash engMut
        [(String.mk (List.replicate 64 'a') ++ ".ots", [5])]
        (List.replicate 64 'a')).2 =
      [(String.mk (List.replicate 64 'a') ++ ".ots", [5, 9])] ∧
    (verify_by_hash engMut
        [(String.mk (List.replicate 64 'a') ++ ".ots", [5])]
        (List.replicate 64 'a')).2 ≠
      [(String.mk (List.replicate 64 'a') ++ ".ots", [5])] :=
  ⟨by decide, by decide, by decide⟩

/-- C4 amended: when the stored proof is not classified `verified` by the
initial verify attempt, the fallback status probe runs `ots upgrade` on the
stored proof file itself, so the store afterwards holds, under that hash, the
engine's post-upgrade file content (which changes whenever the engine
rewrites the proof), even though the caller cannot request or prevent
persistence on this path; all other entries are untouched. -/
theorem c4_fallback_rewrites_stored_proof (eng : Engine) (st : Store)
    (input : List Char) (pb : Bytes) (vr ur : OtsRunResult)
    (hhex : isHex64 (pyStrip (pyLower input)) = true)
    (hget : Store.get st (String.mk (pyStrip (pyLower input)) ++ ".ots") = some pb)
    (hvr : _run_ots_verify (eng.verifySpawn pb none) = .ok vr)
    (hnv : vr.status ≠ "verified")
    (hur : _run_ots_upgrade (eng.upgradeSpawn pb) = .ok ur) :
    (verify_by_hash eng st input).2 =
      Store.setExisting st (String.mk (pyStrip (pyLower input)) ++ ".ots")
        (eng.upgradeResult pb) := by
  have hbeq : (vr.status == "verified") = false := by simp [hnv]
  simp [verify_by_hash, hhex, hget, hvr, hur, hbeq]

/-- Witness for the amended C4 at a concrete store and engine. -/
theorem c4_witness :
    (isHex64 (pyStrip (pyLower (List.replicate 64 'a'))) = true ∧
     Store.get [(String.mk (List.replicate 64 'a') ++ ".ots", [5])]
       (String.mk (pyStrip (pyLower (List.replicate 64 'a'))) ++ ".ots") = some [5] ∧
     _run_ots_verify (engMut.verifySpawn [5] none) =
       .ok { returncode := 1,
             stdout := "Pending confirmation in Bitcoin blockchain".toList,
             stderr := [], ok := true, status := "pending" } ∧
     ("pending" : String) ≠ "verified" ∧
     _run_ots_upgrade (engMut.upgradeSpawn [5]) =
       .ok { returncode := 0, stdout := "Success! Timestamp complete".toList,
             stderr := [], ok := true, status := "verified" }) ∧
    (verify_by_hash engMut [(String.mk (List.replicate 64 'a') ++ ".ots", [5])]
        (List.replicate 64 'a')).2 =
      Store.setExisting [(String.mk (List.replicate 64 'a') ++ ".ots", [5])]
        (String.mk (pyStrip (pyLower (List.replicate 64 'a'))) ++ ".ots")
        (engMut.upgradeResult [5]) :=
  ⟨⟨by decide, by decide, rfl, by decide, rfl⟩,
   c4_fallback_rewrites_stored_proof engMut _ _ [5] _ _ (by decide) (by decide)
     rfl (by decide) rfl⟩

/-- C5: evaluation at the failing input. `POST /upgrade-ots?save=1&by_hash=1`
on proof bytes `[0, 1, 2]` (engine leaving them unchanged) persists the store
entry under `sha256([0, 1, 2]) ++ ".ots"` — the hash of the proof bytes
themselves — which differs from the content hash of a concrete original file
(here the bytes of `hello`), so the entry is not keyed by the ContentHash of
the attested content. -/
theorem c5_upgrade_persists_under_proof_byte_hash :
    (upgrade_ots engPend [] [0, 1, 2] "proof.ots" true true).2 =
      [(_sha256_bytes [0, 1, 2] ++ ".ots", [0, 1, 2])] ∧
    _sha256_bytes [0, 1, 2] ≠ _sha256_bytes [104, 101, 108, 108, 111] :=
  ⟨by decide, by decide⟩

/-- C6 counterexample: an original file is supplied with empty content and
verification succeeds, yet `file_hash` is `none` in the reply: the code
treats an empty uploaded original (`if target_bytes:`) as absent, so the
claim's "including empty" case fails. -/
theorem c6_counterexample :
    ((verify_ots engDone [] [7] (some []) false).1).toOption =
      some { ok := true, status := "verified", returncode := 0,
             stdout := "Success! Timestamp complete".toList, stderr := [],
             file_hash := none, saved_as := none } := by
  decide

/-- C6 amended: for every verify call that supplies an original file with
nonempty content, when the engine process runs at all, the SHA-256 of that
content is computed and returned in the reply — with no hypothesis on the
classification outcome. (An empty supplied original is treated as absent and
yields no hash.) -/
theorem c6_hash_returned_when_nonempty (eng : Engine) (st : Store)
    (ots t : Bytes) (save : Bool) (rc : Int) (out err : List Char)
    (hne : t ≠ [])
    (hsp : eng.verifySpawn ots (some t) = .completed rc out err) :
    ∃ r, (verify_ots eng st ots (some t) save).1 = .ok r ∧
      r.file_hash = some (_sha256_bytes t) := by
  have hemp : t.isEmpty = false := by
    cases t with
    | nil => exact absurd rfl hne
    | cons a l => rfl
  cases save <;> simp [verify_ots, hemp, hsp, _run_ots_verify, _run]

/-- Witness for the amended C6: the engine reports only `pending`, yet the
hash of the supplied original (the bytes of `hello`) is returned. -/
theorem c6_witness :
    (([104, 101, 108, 108, 111] : Bytes) ≠ [] ∧
     engPend.verifySpawn [7] (some [104, 101, 108, 108, 111]) =
       .completed 1 "Pending confirmation in Bitcoin blockchain".toList []) ∧
    ∃ r, (verify_ots engPend [] [7] (some [104, 101, 108, 108, 111]) false).1 = .ok r ∧
      r.file_hash = some (_sha256_bytes [104, 101, 108, 108, 111]) :=
  ⟨⟨by decide, rfl⟩,
   c6_hash_returned_when_nonempty engPend [] [7] _ false 1 _ [] (by decide) rfl⟩

/-- C7: whenever `stamp_file` succeeds (engine invoked and proof artifact
present), the reply's status is the literal `pending` — never `verified`. -/
theorem c7_stamp_status_pending (eng : Engine) (st st2 : Store) (data : Bytes)
    (save : Bool) (rep : StampReply)
    (hs : stamp_file eng st data save = (.success rep, st2)) :
    rep.status = "pending" ∧ rep.status ≠ "verified" := by
  unfold stamp_file at hs
  split at hs
  · simp at hs
  · split at hs
    · simp at hs
    · rw [Prod.mk.injEq] at hs
      obtain ⟨h1, -⟩ := hs
      injection h1 with h1
      subst h1
      refine ⟨rfl, ?_⟩
      show ("pending" : String) ≠ "verified"
      decide

/-- Witness for C7 at a concrete stamp run. -/
theorem c7_witness :
    stamp_file engPend [] [1, 2] false =
      (.success { ok := true, file_hash := _sha256_bytes [1, 2],
                  proof := [0, 1, 2, 3], saved_as := none, returncode := 0,
                  stdout := "Submitting to remote calendar".toList,
                  stderr := [], status := "pending" }, []) ∧
    (({ ok := true, file_hash := _sha256_bytes [1, 2], proof := [0, 1, 2, 3],
        saved_as := none, returncode := 0,
        stdout := "Submitting to remote calendar".toList, stderr := [],
        status := "pending" } : StampReply).status = "pending" ∧
      ({ ok := true, file_hash := _sha256_bytes [1, 2], proof := [0, 1, 2, 3],
         saved_as := none, returncode := 0,
         stdout := "Submitting to remote calendar".toList, stderr := [],
         status := "pending" } : StampReply).status ≠ "verified") :=
  ⟨rfl, c7_stamp_status_pending engPend [] [] [1, 2] false _ rfl⟩

/-- C8: `_run` raises a hard failure (HTTP 500) exactly when the engine
binary could not be located; a completed process is returned as a normal
result with its exit code and captured output for every exit code — a
nonzero exit is never raised. -/
theorem c8_raise_iff_binary_missing :
    (∀ (rc : Int) (out err : List Char), _run (.completed rc out err) =
        .ok { returncode := rc, stdout := pyStrip out, stderr := pyStrip err,
              ok := rc == 0 }) ∧
    (∀ msg, _run (.notFound msg) =
        .error (.http 500 ("Executable not found: ots. ".toList ++ msg))) ∧
    (∀ s : SpawnOutcome, (∃ e, _run s = .error e) ↔ ∃ msg, s = .notFound msg) := by
  refine ⟨fun rc out err => rfl, fun msg => rfl, fun s => ?_⟩
  cases s with
  | notFound msg => exact ⟨fun _ => ⟨msg, rfl⟩, fun _ => ⟨_, rfl⟩⟩
  | completed rc out err =>
      constructor
      · rintro ⟨e, he⟩
        exact Except.noConfusion he
      · rintro ⟨msg, hmsg⟩
        exact SpawnOutcome.noConfusion hmsg

/-- Witness for C8 at a concrete nonzero exit and a concrete missing binary. -/
theorem c8_witness :
    _run (.completed 1 "Pending confirmation".toList []) =
      .ok { returncode := 1, stdout := pyStrip "Pending confirmation".toList,
            stderr := pyStrip [], ok := ((1 : Int) == 0) } ∧
    (∃ e, _run (.notFound "ots missing".toList) = .error e) :=
  ⟨c8_raise_iff_binary_missing.1 1 _ _,
   (c8_raise_iff_binary_missing.2.2 _).mpr ⟨_, rfl⟩⟩

/-- C9: for every well-formed 64-lowercase-hex hash with no matching
`{hash}.ots` entry, `verify_by_hash` reports the 404 `NotFound` reply and
returns the store unchanged, for every engine. -/
theorem c9_not_found_no_side_effects (eng : Engine) (st : Store)
    (h : List Char) (hhex : isHex64 h = true)
    (habs : Store.get st (String.mk h ++ ".ots") = none) :
    verify_by_hash eng st h = (.notFound, st) := by
  simp [verify_by_hash, normalize_eq_self_of_hex64 hhex, hhex, habs]

/-- Witness for C9 at a concrete well-formed hash and an empty store. -/
theorem c9_witness :
    (isHex64 (List.replicate 64 'a') = true ∧
     Store.get [] (String.mk (List.replicate 64 'a') ++ ".ots") = none) ∧
    verify_by_hash engPend [] (List.replicate 64 'a') = (.notFound, []) :=
  ⟨⟨by decide, rfl⟩,
   c9_not_found_no_side_effects engPend [] _ (by decide) rfl⟩

/-- C10: with persistence requested, `verify_ots` (given a nonempty original)
and `upgrade_ots` write the proof bytes into the store whenever the engine
process ran, with no hypothesis on the classification outcome — the entry is
created even when the resulting status is `failed` or `unknown`. -/
theorem c10_persist_regardless_of_status :
    (∀ (eng : Engine) (st : Store) (ots t : Bytes) (rc : Int)
       (out err : List Char), t ≠ [] →
       eng.verifySpawn ots (some t) = .completed rc out err →
       (verify_ots eng st ots (some t) true).2 =
         Store.put st (_sha256_bytes t ++ ".ots") ots) ∧
    (∀ (eng : Engine) (st : Store) (ots : Bytes) (fn : String) (byHash : Bool)
       (rc : Int) (out err : List Char),
       eng.upgradeSpawn ots = .completed rc out err →
       (upgrade_ots eng st ots fn true byHash).2 =
         Store.put st
           (if byHash then _sha256_bytes (eng.upgradeResult ots) ++ ".ots" else fn)
           (eng.upgradeResult ots)) := by
  constructor
  · intro eng st ots t rc out err hne hsp
    have hemp : t.isEmpty = false := by
      cases t with
      | nil => exact absurd rfl hne
      | cons a l => rfl
    simp [verify_ots, hemp, hsp, _run_ots_verify, _run]
  · intro eng st ots fn byHash rc out err hsp
    simp only [upgrade_ots, hsp, _run_ots_upgrade, _run]
    split <;> rfl

/-- Witness for C10: the engine classifies `failed` on both paths, yet the
store entry is written. -/
theorem c10_witness :
    (([1] : Bytes) ≠ [] ∧
     engFail.verifySpawn [7] (some [1]) =
       .completed 1 [] "Error: not a timestamp file".toList ∧
     ((verify_ots engFail [] [7] (some [1]) true).1).toOption.map
       (fun r => r.status) = some "failed" ∧
     (verify_ots engFail [] [7] (some [1]) true).2 =
       Store.put [] (_sha256_bytes [1] ++ ".ots") [7]) ∧
    (engFail.upgradeSpawn [7] =
       .completed 1 [] "Error: not a timestamp file".toList ∧
     (_run_ots_upgrade (engFail.upgradeSpawn [7])).toOption.map
       (fun r => r.status) = some "failed" ∧
     (upgrade_ots engFail [] [7] "proof.ots" true false).2 =
       Store.put []
         (if false then _sha256_bytes (engFail.upgradeResult [7]) ++ ".ots" else "proof.ots")
         (engFail.upgradeResult [7])) :=
  ⟨⟨by decide, rfl, by decide,
    c10_persist_regardless_of_status.1 engFail [] [7] [1] 1 [] _ (by decide) rfl⟩,
   ⟨rfl, by decide,
    c10_persist_regardless_of_status.2 engFail [] [7] "proof.ots" false 1 [] _ rfl⟩⟩

end AutorisOts
